import Mathlib

/-!
Verification of the meta-agent causal-attribution script (`metaagent.py`).

Shallow embedding conventions:
* Python `dict`s are embedded as association lists `List (κ × β)` in insertion
  order; `dict.get` becomes `dict_get` (first matching key).
* Python floats are embedded as rationals `ℚ`.  `round(x, 2)` becomes
  `round2` (round half to even at two decimal places, exact on `ℚ`); where the
  Python float division `x / 0.0` produces NaN/inf, the `ℚ` embedding yields
  `0` (Lean's total division) — every theorem touching that case only needs
  that the result is not a genuine percentage, which holds in both readings.
* The external `dowhy`/`gcm` library (mechanism assignment, fitting,
  `arrow_strength`, `intrinsic_causal_influence`) is out of the repository and
  is embedded as an oracle `Lib`: a function of the random seed, the hard-coded
  causal-graph edge list and the input table, returning either the two raw
  attribution mappings or an error (a raised exception).  `on_receive` itself
  installs seed `0` and has no exception handler, so it simply propagates the
  oracle's error.
* The wall-clock timestamp (`datetime.now()`) is an explicit parameter.
* Plot rendering (`plot`, `bar_plot`, `savefig`) is pure side effect on image
  files and is not modelled; no claim mentions it.
-/

/-- Lookup in an association list: the value of the first pair whose key
matches, as Python `dict.get` (keys are unique in a `dict`, so first = only). -/
def dict_get {α : Type} {β : Type} [DecidableEq α] (k : α) : List (α × β) → Option β
  | [] => none
  | kv :: rest => if kv.1 = k then some kv.2 else dict_get k rest

/-- `np.sum([abs(v) for v in value_dictionary.values()])` from
`convert_to_percentage` (metaagent.py line 78). -/
def total_absolute_sum {κ : Type} (d : List (κ × ℚ)) : ℚ :=
  (d.map fun kv => |kv.2|).sum

/-- `convert_to_percentage` (metaagent.py lines 62–79):
`{k: abs(v) / total_absolute_sum * 100 for k, v in value_dictionary.items()}`. -/
def convert_to_percentage {κ : Type} (d : List (κ × ℚ)) : List (κ × ℚ) :=
  d.map fun kv => (kv.1, |kv.2| / total_absolute_sum d * 100)

/-- Modelled from the spec's words (section 4.1): "mapping from same keys to
the absolute value divided by the sum of all absolute values, times 100".
Only used to compare against the definition taken from the source. -/
def convert_to_percentage_spec {κ : Type} (d : List (κ × ℚ)) : List (κ × ℚ) :=
  d.map fun kv => (kv.1, |kv.2| / (d.map fun kv2 => |kv2.2|).sum * 100)

/-- Decimal digit character for `n` (callers always pass `n < 10`). -/
def digitChar (n : Nat) : Char :=
  if n = 0 then '0'
  else if n = 1 then '1'
  else if n = 2 then '2'
  else if n = 3 then '3'
  else if n = 4 then '4'
  else if n = 5 then '5'
  else if n = 6 then '6'
  else if n = 7 then '7'
  else if n = 8 then '8'
  else '9'

/-- Base-10 digit list of a natural number (empty for `0`). -/
def natDigits : Nat → List Char
  | 0 => []
  | n + 1 => natDigits ((n + 1) / 10) ++ [digitChar ((n + 1) % 10)]
termination_by n => n
decreasing_by exact Nat.div_lt_self (Nat.succ_pos n) (by norm_num)

/-- Decimal rendering of a natural number. -/
def natStr (n : Nat) : String := if n = 0 then "0" else String.mk (natDigits n)

/-- Fixed two-decimal rendering of the rational `n / 100`: the embedding of
Python's textual rendering of a float already rounded to two decimal places
(Python's `repr` drops trailing zero digits; the fixed-width rendering keeps
them — same number, same absence of newlines, which is all the claims use). -/
def renderCenti (n : ℤ) : String :=
  (if n < 0 then "-" else "") ++ natStr (n.natAbs / 100) ++ "." ++
    String.mk [digitChar (n.natAbs / 10 % 10), digitChar (n.natAbs % 10)]

/-- Round a rational to the nearest integer, ties to even: the embedding of
Python's `round` (banker's rounding). -/
def roundHalfEven (q : ℚ) : ℤ :=
  if q - Int.floor q < 1 / 2 then Int.floor q
  else if (1 : ℚ) / 2 < q - Int.floor q then Int.floor q + 1
  else if Int.floor q % 2 = 0 then Int.floor q else Int.floor q + 1

/-- `round(value, 2)` from metaagent.py: the value rounded to two decimals. -/
def round2 (q : ℚ) : ℚ := (roundHalfEven (q * 100) : ℚ) / 100

/-- Text of `round(float(value), 2)` as interpolated by the f-strings. -/
def showRound2 (q : ℚ) : String := renderCenti (roundHalfEven (q * 100))

/-- One iteration of the loop body of `get_readable_percentages_arrow`
(metaagent.py lines 94–97): stands for the f-string
`"{source} -> {target} = {formatted_value}%\n"`. -/
def arrowLine (kv : (String × String) × ℚ) : String :=
  kv.1.1 ++ " -> " ++ kv.1.2 ++ " = " ++ showRound2 kv.2 ++ "%\n"

/-- `get_readable_percentages_arrow` (metaagent.py lines 82–98): starts from
the empty string and appends one arrow line per entry. -/
def get_readable_percentages_arrow (d : List ((String × String) × ℚ)) : String :=
  d.foldl (fun result kv => result ++ arrowLine kv) ""

/-- One iteration of the loop body of `get_readable_percentages_iccs`
(metaagent.py lines 113–116): stands for the f-string
`"{key} = {formatted_value}%\n"`. -/
def iccsLine (kv : String × ℚ) : String :=
  kv.1 ++ " = " ++ showRound2 kv.2 ++ "%\n"

/-- `get_readable_percentages_iccs` (metaagent.py lines 101–117). -/
def get_readable_percentages_iccs (d : List (String × ℚ)) : String :=
  d.foldl (fun result kv => result ++ iccsLine kv) ""

/-- Number of newline characters in a string: the number of (newline
terminated) lines of the texts the formatters build. -/
def countNewlines (s : String) : Nat := s.data.count '\n'

/-- The hard-coded causal graph, as its edge list (metaagent.py lines
140–165). -/
def causal_graph : List (String × String) :=
  [("altitude", "air_filter_pressure"),
   ("air_filter_pressure", "egt_turbo_inlet"),
   ("air_filter_pressure", "fuel_consumption"),
   ("engine_load", "engine_rpm"),
   ("engine_load", "fuel_consumption"),
   ("engine_rpm", "air_filter_pressure"),
   ("altitude", "engine_load"),
   ("ambient_temp", "coolant_temp"),
   ("ambient_temp", "egt_turbo_inlet"),
   ("fuel_consumption", "egt_turbo_inlet"),
   ("engine_load", "egt_turbo_inlet"),
   ("coolant_temp", "egt_turbo_inlet"),
   ("engine_rpm", "coolant_temp")]

/-- The fixed treatment list (metaagent.py lines 168–174). -/
def treatments : List String :=
  ["altitude", "ambient_temp", "engine_load", "engine_rpm",
   "air_filter_pressure", "coolant_temp", "fuel_consumption"]

/-- The fixed outcome list (metaagent.py line 175). -/
def outcomes : List String := ["egt_turbo_inlet"]

/-- The observation table handed to the library (`pd.DataFrame(data)`):
named columns of measurements.  `on_receive` only forwards it. -/
abbrev Table : Type := List (String × List ℚ)

/-- What the external `gcm` pipeline (mechanism assignment, `fit`,
`arrow_strength`, `intrinsic_causal_influence`) produces on success: the raw
arrow-strength mapping over edges and the raw ICC mapping over variables. -/
structure LibOutcome where
  arrow_strengths : List ((String × String) × ℚ)
  iccs : List (String × ℚ)

/-- The external causal-inference library as an oracle: a function of the
random seed (installed by `set_random_seed`), the graph edge list and the
table, which either returns the two attribution mappings or raises (an
`Except.error` carrying the exception message). -/
abbrev Lib : Type := ℕ → List (String × String) → Table → Except String LibOutcome

/-- Python `repr` of a list of strings, as interpolated by
`f"- Treatments: {treatments}"` (metaagent.py lines 226–227). -/
def pyStrList (l : List String) : String :=
  "[" ++ String.intercalate ", " (l.map fun s => "\x27" ++ s ++ "\x27") ++ "]"

/-- The f-string `"{treatment} -> {outcomes[0]} = {rounded_value}%"` of the
arrow-strength summary loop (metaagent.py line 237), applied to the raw
percentage `v` (the loop rounds it to two decimals before printing). -/
def strengthLine (t : String) (v : ℚ) : String :=
  t ++ " -> " ++ outcomes.headD "" ++ " = " ++ showRound2 v ++ "%"

/-- The `strength_dict` built by the loop over `treatments` (metaagent.py
lines 230–240): for each treatment, the arrow-strength percentage of
`(treatment, outcomes[0])` rounded to two decimals, or `none` (Python `None`)
when the pair is absent from the mapping. -/
def build_strength_dict (pct : List ((String × String) × ℚ)) :
    List (String × Option ℚ) :=
  treatments.map fun t => (t, (dict_get (t, outcomes.headD "") pct).map round2)

/-- The summary lines appended by the same loop: only treatments whose
`(treatment, outcome)` pair is present contribute a line (the `else` branch
appends nothing). -/
def strength_summary_lines (pct : List ((String × String) × ℚ)) : List String :=
  treatments.filterMap fun t => (dict_get (t, outcomes.headD "") pct).map (strengthLine t)

/-- The `iccs_dict` built by the loop over `iccs_pct` (metaagent.py lines
243–246): every value rounded to two decimals. -/
def build_iccs_dict (pct : List (String × ℚ)) : List (String × ℚ) :=
  pct.map fun kv => (kv.1, round2 kv.2)

/-- The ICC summary lines of the same loop:
`f"{variable} = {rounded_value}%"`. -/
def iccs_summary_lines (pct : List (String × ℚ)) : List String :=
  pct.map fun kv => kv.1 ++ " = " ++ showRound2 kv.2 ++ "%"

/-- The `summary_lines` list assembled by `on_receive` (metaagent.py lines
222–246), later joined with newlines. -/
def summary_lines (arrow_pct : List ((String × String) × ℚ))
    (iccs_pct : List (String × ℚ)) : List String :=
  ["This is the result using dowhy.gcm on the data:\n",
   "- Treatments: " ++ pyStrList treatments,
   "- Outcomes: " ++ pyStrList outcomes ++ "\n",
   "Arrow Strengths:\n----------------"]
  ++ strength_summary_lines arrow_pct
  ++ ["\nICCs:\n-----"]
  ++ iccs_summary_lines iccs_pct

/-- `json.dumps(strength_dict)` (metaagent.py line 253): object text over the
entries in order; Python `None` serializes as `null`. -/
def json_dumps_strength (d : List (String × Option ℚ)) : String :=
  "\x7b" ++ String.intercalate ", "
    (d.map fun kv => "\"" ++ kv.1 ++ "\": " ++
      (match kv.2 with
       | none => "null"
       | some v => showRound2 v)) ++ "\x7d"

/-- `json.dumps(iccs_dict)` (metaagent.py line 254). -/
def json_dumps_iccs (d : List (String × ℚ)) : String :=
  "\x7b" ++ String.intercalate ", "
    (d.map fun kv => "\"" ++ kv.1 ++ "\": " ++ showRound2 kv.2) ++ "\x7d"

/-- `on_receive` (metaagent.py lines 46–258): installs the fixed seed `0`,
hands the hard-coded graph and the table to the library oracle, normalizes
both attribution mappings to percentages, and returns the result dictionary
of timestamp, the two JSON-serialized dictionaries and the joined summary.
The wall clock (`datetime.now().strftime(...)`) is the parameter `ts`; the
two `savefig` side effects touch no claim and are omitted.  The body contains
no `try`/`except`, so a library error propagates unchanged. -/
def on_receive (lib : Lib) (ts : String) (data : Table) :
    Except String (List (String × String)) :=
  match lib 0 causal_graph data with
  | Except.error e => Except.error e
  | Except.ok res =>
    let arrow_strengths_pct := convert_to_percentage res.arrow_strengths
    let iccs_pct := convert_to_percentage res.iccs
    Except.ok
      [("timestamp", ts),
       ("strength", json_dumps_strength (build_strength_dict arrow_strengths_pct)),
       ("iccs", json_dumps_iccs (build_iccs_dict iccs_pct)),
       ("summary", String.intercalate "\n" (summary_lines arrow_strengths_pct iccs_pct))]

/-- The two module-level placeholder globals (metaagent.py lines 27–28). -/
structure AgentState where
  foo_value : Option Int
  bar_value : Option Int

/-- Module import state: both globals are `None`. -/
def init_state : AgentState := { foo_value := none, bar_value := none }

/-- `on_create` (metaagent.py lines 30–44) as a state transformer: writes
`foo_value` from `data.get("foo", 0)`, leaves `bar_value` alone, and returns
the initialization dictionary. -/
def on_create (s : AgentState) (data : List (String × Int)) :
    AgentState × List (String × Int) :=
  ({ s with foo_value := some ((dict_get "foo" data).getD 0) },
   [("initialized_foo", (dict_get "foo" data).getD 0)])

/-- `on_receive` as a state transformer over the globals: its body declares no
`global` and never mentions `foo_value` or `bar_value`, so the embedding
threads the state through unchanged and computes the result without it. -/
def on_receive_lifted (lib : Lib) (ts : String) (s : AgentState) (data : Table) :
    AgentState × Except String (List (String × String)) :=
  (s, on_receive lib ts data)

/-- `on_destroy` (metaagent.py lines 260–271): reads both globals into the
returned dictionary, writes neither. -/
def on_destroy (s : AgentState) : AgentState × List (String × Option Int) :=
  (s, [("final_foo", s.foo_value), ("final_bar", s.bar_value)])

/-- One call to any of the three lifecycle entry points. -/
inductive LifecycleEvent where
  | create (data : List (String × Int))
  | receive (lib : Lib) (ts : String) (data : Table)
  | destroy

/-- The global state reached after one lifecycle call. -/
def stepState (s : AgentState) : LifecycleEvent → AgentState
  | LifecycleEvent.create d => (on_create s d).1
  | LifecycleEvent.receive lib ts d => (on_receive_lifted lib ts s d).1
  | LifecycleEvent.destroy => (on_destroy s).1

/-- The global state after an arbitrary sequence of lifecycle calls, starting
at module import. -/
def runEvents (evs : List LifecycleEvent) : AgentState :=
  evs.foldl stepState init_state

/-- An oracle whose estimation always raises: exhibits error propagation. -/
def failingLib : Lib := fun _ _ _ => Except.error "estimation failed"

/-- An oracle that succeeds (with empty attributions) only under seed `0`. -/
def seedZeroLib : Lib := fun seed _ _ =>
  if seed = 0 then Except.ok { arrow_strengths := [], iccs := [] }
  else Except.error "other seed"

/-- An oracle that succeeds with empty attributions under every seed. -/
def constLib : Lib := fun _ _ _ => Except.ok { arrow_strengths := [], iccs := [] }

/-- An oracle returning one fixed nonzero attribution outcome. -/
def okLib : Lib := fun _ _ _ =>
  Except.ok { arrow_strengths := [(("altitude", "egt_turbo_inlet"), 2)],
              iccs := [("altitude", 2)] }

theorem total_absolute_sum_nonneg {κ : Type} (d : List (κ × ℚ)) :
    0 ≤ total_absolute_sum d := by
  induction d with
  | nil => simp [total_absolute_sum]
  | cons hd tl ih =>
    simp only [total_absolute_sum, List.map_cons, List.sum_cons] at *
    exact add_nonneg (abs_nonneg _) ih

theorem total_absolute_sum_pos {κ : Type} (d : List (κ × ℚ))
    (h : ∃ kv ∈ d, kv.2 ≠ 0) : 0 < total_absolute_sum d := by
  induction d with
  | nil => rcases h with ⟨kv, hm, _⟩; cases hm
  | cons hd tl ih =>
    simp only [total_absolute_sum, List.map_cons, List.sum_cons] at *
    rcases h with ⟨kv, hm, hv⟩
    rcases List.mem_cons.mp hm with rfl | hm2
    · have h1 : 0 < |kv.2| := abs_pos.mpr hv
      have h2 : (0:ℚ) ≤ (tl.map fun kv => |kv.2|).sum := total_absolute_sum_nonneg tl
      linarith
    · have h1 : (0:ℚ) < (tl.map fun kv => |kv.2|).sum := ih ⟨kv, hm2, hv⟩
      have h2 : (0:ℚ) ≤ |hd.2| := abs_nonneg _
      linarith

theorem sum_abs_div_mul_hundred {κ : Type} (d : List (κ × ℚ)) (s : ℚ) :
    (d.map fun kv => |kv.2| / s * 100).sum = total_absolute_sum d / s * 100 := by
  induction d with
  | nil => simp [total_absolute_sum]
  | cons hd tl ih =>
    simp only [total_absolute_sum, List.map_cons, List.sum_cons] at *
    rw [ih]
    ring

/-- C1 counterexample: on the non-empty, all-zero mapping `{"k": 0}` the
denominator `total_absolute_sum` is `0`, so the comprehension divides by zero
(NaN in Python, `0` in the `ℚ` embedding) and the values do not sum to 100. -/
theorem C1_counterexample :
    ((convert_to_percentage [(("k" : String), (0:ℚ))]).map Prod.snd).sum ≠ 100 := by
  norm_num [convert_to_percentage, total_absolute_sum]

/-- C1 (amended): for every mapping holding at least one nonzero magnitude
(hence non-empty), the values of `convert_to_percentage` sum to exactly 100;
the all-zero case is excluded, since there the division by the zero
`total_absolute_sum` is unguarded and cannot produce percentages. -/
theorem C1_amended {κ : Type} (d : List (κ × ℚ)) (h : ∃ kv ∈ d, kv.2 ≠ 0) :
    ((convert_to_percentage d).map Prod.snd).sum = 100 := by
  have hne : total_absolute_sum d ≠ 0 := ne_of_gt (total_absolute_sum_pos d h)
  unfold convert_to_percentage
  rw [List.map_map]
  have hcomp : (Prod.snd ∘ fun kv : κ × ℚ => (kv.1, |kv.2| / total_absolute_sum d * 100)) =
      fun kv : κ × ℚ => |kv.2| / total_absolute_sum d * 100 := rfl
  rw [hcomp, sum_abs_div_mul_hundred, div_self hne, one_mul]

/-- C1 witness: the amended theorem applied to the concrete signed mapping
`{"x": -3, "y": 1}`. -/
theorem C1_witness :
    ((convert_to_percentage [(("x" : String), (-3:ℚ)), ("y", 1)]).map Prod.snd).sum = 100 :=
  C1_amended [("x", -3), ("y", 1)] ⟨("x", -3), by simp, by norm_num⟩

/-- C2: `convert_to_percentage` keeps exactly the input keys in order, and it
coincides with the mapping described by the spec's words (absolute value over
the sum of all absolute values, times 100) on every input. -/
theorem C2_percentage_refines_spec {κ : Type} (d : List (κ × ℚ)) :
    (convert_to_percentage d).map Prod.fst = d.map Prod.fst ∧
    convert_to_percentage d = convert_to_percentage_spec d := by
  constructor
  · rw [convert_to_percentage, List.map_map]
    rfl
  · rfl

/-- C9: the denominator of `convert_to_percentage` (line 78–79) is strictly
positive as soon as some input magnitude is nonzero, so each division is by a
nonzero number; on an all-zero mapping the denominator is `0` and the division
on line 79 is performed unguarded. -/
theorem C9_denominator (κ : Type) (d : List (κ × ℚ)) :
    ((∃ kv ∈ d, kv.2 ≠ 0) → 0 < total_absolute_sum d) ∧
    ((∀ kv ∈ d, kv.2 = 0) → total_absolute_sum d = 0) := by
  constructor
  · exact total_absolute_sum_pos d
  · intro hz
    induction d with
    | nil => simp [total_absolute_sum]
    | cons hd tl ih =>
      simp only [total_absolute_sum, List.map_cons, List.sum_cons] at *
      rw [hz hd (List.mem_cons_self hd tl), ih fun kv hm => hz kv (List.mem_cons_of_mem hd hm)]
      simp

/-- C9 witness: at `{"x": 2}` the denominator is positive; at the all-zero
`{"x": 0}` it is zero. -/
theorem C9_witness :
    0 < total_absolute_sum [(("x" : String), (2:ℚ))] ∧
    total_absolute_sum [(("x" : String), (0:ℚ))] = 0 :=
  ⟨(C9_denominator String [("x", 2)]).1 ⟨("x", 2), by simp, by norm_num⟩,
   (C9_denominator String [("x", 0)]).2 (by simp)⟩

theorem string_data_append (s t : String) : (s ++ t).data = s.data ++ t.data := by
  cases s; cases t; rfl

theorem countNewlines_append (s t : String) :
    countNewlines (s ++ t) = countNewlines s + countNewlines t := by
  simp [countNewlines, string_data_append, List.count_append]

theorem digitChar_ne_newline (n : Nat) : digitChar n ≠ '\n' := by
  unfold digitChar
  repeat' split
  all_goals decide

theorem natDigits_no_newline (n : Nat) : ∀ c ∈ natDigits n, c ≠ '\n' := by
  induction n using Nat.strong_induction_on with
  | _ n ih =>
    match n with
    | 0 => simp [natDigits]
    | m + 1 =>
      intro c hc
      rw [natDigits] at hc
      rcases List.mem_append.mp hc with h | h
      · exact ih _ (Nat.div_lt_self (Nat.succ_pos m) (by norm_num)) c h
      · rw [List.mem_singleton.mp h]
        exact digitChar_ne_newline _

theorem countNewlines_natStr (n : Nat) : countNewlines (natStr n) = 0 := by
  unfold natStr
  split
  · decide
  · simp only [countNewlines]
    exact List.count_eq_zero.mpr fun hmem => natDigits_no_newline n _ hmem rfl

theorem countNewlines_renderCenti (n : ℤ) : countNewlines (renderCenti n) = 0 := by
  unfold renderCenti
  rw [countNewlines_append, countNewlines_append, countNewlines_append]
  rw [countNewlines_natStr]
  have h1 : countNewlines (if n < 0 then "-" else "") = 0 := by split <;> decide
  have h2 : countNewlines "." = 0 := by decide
  have h3 : countNewlines (String.mk [digitChar (n.natAbs / 10 % 10), digitChar (n.natAbs % 10)]) = 0 := by
    simp only [countNewlines]
    refine List.count_eq_zero.mpr fun hmem => ?_
    rcases List.mem_cons.mp hmem with h | h
    · exact digitChar_ne_newline _ h.symm
    · exact digitChar_ne_newline _ (List.mem_singleton.mp h).symm
  omega

theorem countNewlines_arrowLine (kv : (String × String) × ℚ)
    (h1 : countNewlines kv.1.1 = 0) (h2 : countNewlines kv.1.2 = 0) :
    countNewlines (arrowLine kv) = 1 := by
  unfold arrowLine showRound2
  rw [countNewlines_append, countNewlines_append, countNewlines_append,
    countNewlines_append, countNewlines_append]
  rw [h1, h2, countNewlines_renderCenti]
  decide

theorem countNewlines_iccsLine (kv : String × ℚ) (h1 : countNewlines kv.1 = 0) :
    countNewlines (iccsLine kv) = 1 := by
  unfold iccsLine showRound2
  rw [countNewlines_append, countNewlines_append, countNewlines_append]
  rw [h1, countNewlines_renderCenti]
  decide

theorem countNewlines_foldl {α : Type} (f : α → String) (l : List α) (acc : String) :
    countNewlines (l.foldl (fun r kv => r ++ f kv) acc) =
      countNewlines acc + (l.map fun kv => countNewlines (f kv)).sum := by
  induction l generalizing acc with
  | nil => simp
  | cons hd tl ih =>
    simp only [List.foldl_cons, List.map_cons, List.sum_cons]
    rw [ih, countNewlines_append]
    omega

theorem roundHalfEven_close (x : ℚ) : |(roundHalfEven x : ℚ) - x| ≤ 1 / 2 := by
  have h1 : (Int.floor x : ℚ) ≤ x := Int.floor_le x
  have h2 : x < Int.floor x + 1 := Int.lt_floor_add_one x
  unfold roundHalfEven
  split
  · rename_i hlt
    rw [abs_le]
    constructor <;> linarith
  · rename_i hge
    push_neg at hge
    split
    · rename_i hgt
      push_cast
      rw [abs_le]
      constructor <;> linarith
    · rename_i hle
      push_neg at hle
      have heq : x - Int.floor x = 1 / 2 := le_antisymm hle hge
      split
      · rw [abs_le]
        constructor <;> linarith
      · push_cast
        rw [abs_le]
        constructor <;> linarith

theorem round2_close (q : ℚ) : |round2 q - q| ≤ 1 / 200 := by
  have h := roundHalfEven_close (q * 100)
  unfold round2
  have heq : (roundHalfEven (q * 100) : ℚ) / 100 - q = ((roundHalfEven (q * 100) : ℚ) - q * 100) / 100 := by
    ring
  rw [heq, abs_div]
  rw [abs_of_pos (by norm_num : (0:ℚ) < 100)]
  linarith

theorem sum_map_one {α : Type} (l : List α) : (l.map fun _ => (1:Nat)).sum = l.length := by
  induction l with
  | nil => simp
  | cons hd tl ih => simp [ih]; omega

theorem countNewlines_empty : countNewlines "" = 0 := rfl

/-- C3: each formatter emits exactly one newline-terminated line per mapping
entry — the newline count of the output equals the mapping size (for entries
whose key strings are newline-free, as all graph-variable names are) — and the
numeric text of each line is the entry's value rounded to two decimal places:
a multiple of 1/100 within 1/200 of the exact value. -/
theorem C3_formatters (da : List ((String × String) × ℚ)) (di : List (String × ℚ))
    (ha : ∀ kv ∈ da, countNewlines kv.1.1 = 0 ∧ countNewlines kv.1.2 = 0)
    (hi : ∀ kv ∈ di, countNewlines kv.1 = 0) :
    countNewlines (get_readable_percentages_arrow da) = da.length ∧
    countNewlines (get_readable_percentages_iccs di) = di.length ∧
    (∀ kv ∈ da, arrowLine kv =
        kv.1.1 ++ " -> " ++ kv.1.2 ++ " = " ++ renderCenti (roundHalfEven (kv.2 * 100)) ++ "%\n" ∧
      (roundHalfEven (kv.2 * 100) : ℚ) / 100 = round2 kv.2 ∧
      |round2 kv.2 - kv.2| ≤ 1 / 200) ∧
    (∀ kv ∈ di, iccsLine kv =
        kv.1 ++ " = " ++ renderCenti (roundHalfEven (kv.2 * 100)) ++ "%\n" ∧
      (roundHalfEven (kv.2 * 100) : ℚ) / 100 = round2 kv.2 ∧
      |round2 kv.2 - kv.2| ≤ 1 / 200) := by
  refine ⟨?_, ?_, ?_, ?_⟩
  · unfold get_readable_percentages_arrow
    rw [countNewlines_foldl arrowLine da ""]
    rw [List.map_congr_left fun kv hm => countNewlines_arrowLine kv (ha kv hm).1 (ha kv hm).2]
    rw [sum_map_one, countNewlines_empty]
    omega
  · unfold get_readable_percentages_iccs
    rw [countNewlines_foldl iccsLine di ""]
    rw [List.map_congr_left fun kv hm => countNewlines_iccsLine kv (hi kv hm)]
    rw [sum_map_one, countNewlines_empty]
    omega
  · exact fun kv _ => ⟨rfl, rfl, round2_close kv.2⟩
  · exact fun kv _ => ⟨rfl, rfl, round2_close kv.2⟩

/-- C3 witness: the theorem applied to the one-entry mappings
`{("a","b"): 1/3}` and `{"x": 7}`. -/
theorem C3_witness :
    countNewlines (get_readable_percentages_arrow [(("a", "b"), (1:ℚ)/3)]) = 1 ∧
    countNewlines (get_readable_percentages_iccs [("x", (7:ℚ))]) = 1 ∧
    (∀ kv ∈ [(("a", "b"), (1:ℚ)/3)], arrowLine kv =
        kv.1.1 ++ " -> " ++ kv.1.2 ++ " = " ++ renderCenti (roundHalfEven (kv.2 * 100)) ++ "%\n" ∧
      (roundHalfEven (kv.2 * 100) : ℚ) / 100 = round2 kv.2 ∧
      |round2 kv.2 - kv.2| ≤ 1 / 200) ∧
    (∀ kv ∈ [("x", (7:ℚ))], iccsLine kv =
        kv.1 ++ " = " ++ renderCenti (roundHalfEven (kv.2 * 100)) ++ "%\n" ∧
      (roundHalfEven (kv.2 * 100) : ℚ) / 100 = round2 kv.2 ∧
      |round2 kv.2 - kv.2| ≤ 1 / 200) :=
  C3_formatters [(("a", "b"), (1:ℚ)/3)] [("x", (7:ℚ))] (by decide) (by decide)

theorem dict_get_map_self {α β : Type} [DecidableEq α] (l : List α) (g : α → β) (t : α)
    (h : t ∈ l) : dict_get t (l.map fun a => (a, g a)) = some (g t) := by
  induction l with
  | nil => cases h
  | cons hd tl ih =>
    simp only [List.map_cons, dict_get]
    by_cases heq : hd = t
    · subst heq
      simp
    · rw [if_neg heq]
      exact ih ((List.mem_cons.mp h).resolve_left fun hh => heq hh.symm)

/-- C4: when the arrow-strength percentage mapping lacks the
`(treatment, outcome)` entry for a treatment of the fixed list, `on_receive`
fabricates nothing: `strength_dict` holds that treatment's key with value
`None`, and every emitted arrow summary line stems from a different treatment
whose entry is present; while an error raised inside the library (as on a
missing treatment/outcome column of the table) propagates out of `on_receive`
instead of producing a result. -/
theorem C4_missing_pair (pct : List ((String × String) × ℚ)) (t : String)
    (ht : t ∈ treatments)
    (hmiss : dict_get (t, "egt_turbo_inlet") pct = none) :
    dict_get t (build_strength_dict pct) = some none ∧
    (∀ l ∈ strength_summary_lines pct, ∃ t2, ∃ v, t2 ∈ treatments ∧ t2 ≠ t ∧
      dict_get (t2, "egt_turbo_inlet") pct = some v ∧ l = strengthLine t2 v) ∧
    (∀ (lib : Lib) (ts : String) (data : Table) (e : String),
      lib 0 causal_graph data = Except.error e →
      on_receive lib ts data = Except.error e) := by
  refine ⟨?_, ?_, ?_⟩
  · unfold build_strength_dict
    rw [dict_get_map_self treatments (fun t2 => (dict_get (t2, outcomes.headD "") pct).map round2) t ht]
    show some ((dict_get (t, "egt_turbo_inlet") pct).map round2) = some none
    rw [hmiss]
    rfl
  · intro l hl
    rcases List.mem_filterMap.mp hl with ⟨t2, ht2, hmap⟩
    rcases Option.map_eq_some'.mp hmap with ⟨v, hv, hline⟩
    have hv2 : dict_get (t2, "egt_turbo_inlet") pct = some v := hv
    refine ⟨t2, v, ht2, ?_, hv2, hline.symm⟩
    intro hteq
    rw [hteq] at hv2
    rw [hmiss] at hv2
    cases hv2
  · intro lib ts data e he
    unfold on_receive
    rw [he]

/-- C4 witness: the theorem at the empty percentage mapping and the treatment
`"altitude"`, together with the always-raising oracle. -/
theorem C4_witness :
    dict_get "altitude" (build_strength_dict []) = some none ∧
    (∀ l ∈ strength_summary_lines [], ∃ t2, ∃ v, t2 ∈ treatments ∧ t2 ≠ "altitude" ∧
      dict_get (t2, "egt_turbo_inlet") ([] : List ((String × String) × ℚ)) = some v ∧
      l = strengthLine t2 v) ∧
    (∀ (lib : Lib) (ts : String) (data : Table) (e : String),
      lib 0 causal_graph data = Except.error e →
      on_receive lib ts data = Except.error e) :=
  C4_missing_pair [] "altitude" (by decide) rfl

/-- C5 counterexample: with an oracle whose estimation raises, `on_receive`
on any input returns that very error — the exception is not swallowed and no
result (with or without a NaN sentinel) is produced. -/
theorem C5_counterexample :
    on_receive failingLib "2025-04-14 14:25:00" [] = Except.error "estimation failed" := rfl

/-- C5 (amended): estimation failures inside `on_receive` are not caught: the
library exception propagates to the caller unchanged.  What `on_receive` does
substitute — for a `(treatment, outcome)` pair merely absent from the
arrow-strength mapping — is the null sentinel `None` (not NaN), and the loop
then continues over the remaining treatments, producing an entry for every
treatment of the fixed list. -/
theorem C5_amended (lib : Lib) (ts : String) (data : Table) (e : String)
    (he : lib 0 causal_graph data = Except.error e)
    (pct : List ((String × String) × ℚ)) (t : String)
    (ht : t ∈ treatments)
    (hmiss : dict_get (t, "egt_turbo_inlet") pct = none) :
    on_receive lib ts data = Except.error e ∧
    dict_get t (build_strength_dict pct) = some none ∧
    (build_strength_dict pct).length = treatments.length := by
  refine ⟨?_, ?_, ?_⟩
  · unfold on_receive
    rw [he]
  · unfold build_strength_dict
    rw [dict_get_map_self treatments (fun t2 => (dict_get (t2, outcomes.headD "") pct).map round2) t ht]
    show some ((dict_get (t, "egt_turbo_inlet") pct).map round2) = some none
    rw [hmiss]
    rfl
  · unfold build_strength_dict
    rw [List.length_map]

/-- C5 witness: the amended theorem at the always-raising oracle, the empty
mapping and the treatment `"altitude"`. -/
theorem C5_witness :
    on_receive failingLib "2025-04-14 14:25:00" [] = Except.error "estimation failed" ∧
    dict_get "altitude" (build_strength_dict []) = some none ∧
    (build_strength_dict []).length = treatments.length :=
  C5_amended failingLib "2025-04-14 14:25:00" [] "estimation failed" rfl [] "altitude"
    (by decide) rfl

/-- C6: the attribution percentage entries of the result depend only on what
the library computes under the seed `0` that `set_random_seed(0)` installs at
the start of every invocation (and under the fixed hard-coded graph): two
invocations on the same dataset whose library behaviours agree at seed `0` —
in particular two invocations of the very same seeded library — return
identical `strength` and `iccs` percentage payloads, whatever their
timestamps. -/
theorem C6_fixed_seed (lib lib2 : Lib) (data : Table) (ts1 ts2 : String)
    (h : lib 0 causal_graph data = lib2 0 causal_graph data) :
    Except.map (fun r => (dict_get "strength" r, dict_get "iccs" r)) (on_receive lib ts1 data) =
    Except.map (fun r => (dict_get "strength" r, dict_get "iccs" r)) (on_receive lib2 ts2 data) := by
  unfold on_receive
  rw [h]
  cases lib2 0 causal_graph data with
  | error e => rfl
  | ok res => rfl

/-- C6 witness: an oracle that only succeeds under seed `0` against an oracle
succeeding everywhere, agreeing at seed `0`, with two different timestamps. -/
theorem C6_witness :
    Except.map (fun r => (dict_get "strength" r, dict_get "iccs" r))
      (on_receive seedZeroLib "2025-04-14 14:25:00" []) =
    Except.map (fun r => (dict_get "strength" r, dict_get "iccs" r))
      (on_receive constLib "2025-04-15 09:00:00" []) :=
  C6_fixed_seed seedZeroLib constLib [] "2025-04-14 14:25:00" "2025-04-15 09:00:00" rfl

/-- C7: on every successful invocation the result dictionary holds exactly the
four keys `timestamp`, `strength`, `iccs`, `summary`, in that order and with
no other entry: the timestamp, the two percentage dictionaries serialized as
JSON object strings, and the joined summary text. -/
theorem C7_result_shape (lib : Lib) (ts : String) (data : Table) (res : LibOutcome)
    (h : lib 0 causal_graph data = Except.ok res) :
    on_receive lib ts data = Except.ok
      [("timestamp", ts),
       ("strength", json_dumps_strength (build_strength_dict (convert_to_percentage res.arrow_strengths))),
       ("iccs", json_dumps_iccs (build_iccs_dict (convert_to_percentage res.iccs))),
       ("summary", String.intercalate "\n"
         (summary_lines (convert_to_percentage res.arrow_strengths) (convert_to_percentage res.iccs)))] ∧
    Except.map (List.map Prod.fst) (on_receive lib ts data) =
      Except.ok ["timestamp", "strength", "iccs", "summary"] := by
  unfold on_receive
  rw [h]
  exact ⟨rfl, rfl⟩

/-- C7 witness: the theorem at a concrete succeeding oracle. -/
theorem C7_witness :
    on_receive okLib "2025-04-14 14:25:00" [] = Except.ok
      [("timestamp", "2025-04-14 14:25:00"),
       ("strength", json_dumps_strength (build_strength_dict
         (convert_to_percentage [(("altitude", "egt_turbo_inlet"), (2:ℚ))]))),
       ("iccs", json_dumps_iccs (build_iccs_dict
         (convert_to_percentage [("altitude", (2:ℚ))]))),
       ("summary", String.intercalate "\n"
         (summary_lines (convert_to_percentage [(("altitude", "egt_turbo_inlet"), (2:ℚ))])
           (convert_to_percentage [("altitude", (2:ℚ))])))] ∧
    Except.map (List.map Prod.fst) (on_receive okLib "2025-04-14 14:25:00" []) =
      Except.ok ["timestamp", "strength", "iccs", "summary"] :=
  C7_result_shape okLib "2025-04-14 14:25:00" []
    { arrow_strengths := [(("altitude", "egt_turbo_inlet"), 2)], iccs := [("altitude", 2)] } rfl

/-- C8: `on_receive` neither reads nor writes the two module-level
placeholders: the lifted call leaves the global state untouched (both
`foo_value` and `bar_value` included), its result is the same under any two
global states, and conversely `on_create` writes only `foo_value` while
`on_destroy` only reads. -/
theorem C8_placeholders_frame (lib : Lib) (ts : String) (s s2 : AgentState)
    (data : Table) (cdata : List (String × Int)) :
    (on_receive_lifted lib ts s data).1 = s ∧
    (on_receive_lifted lib ts s data).2 = (on_receive_lifted lib ts s2 data).2 ∧
    (on_receive_lifted lib ts s data).1.foo_value = s.foo_value ∧
    (on_receive_lifted lib ts s data).1.bar_value = s.bar_value ∧
    (on_create s cdata).1.bar_value = s.bar_value ∧
    (on_destroy s).1 = s :=
  ⟨rfl, rfl, rfl, rfl, rfl, rfl⟩

/-- C10: no lifecycle entry point ever assigns `bar_value` after its
module-level initialization to `None`, so after any sequence of `on_create`,
`on_receive` and `on_destroy` calls the global `bar_value` is still `None`,
and the dictionary `on_destroy` returns then carries `final_bar = None`. -/
theorem C10_final_bar_none (evs : List LifecycleEvent) :
    (runEvents evs).bar_value = none ∧
    dict_get "final_bar" (on_destroy (runEvents evs)).2 = some none := by
  have key : ∀ (l : List LifecycleEvent) (s : AgentState),
      (l.foldl stepState s).bar_value = s.bar_value := by
    intro l
    induction l with
    | nil => intro s; rfl
    | cons hd tl ih =>
      intro s
      rw [List.foldl_cons, ih]
      cases hd <;> rfl
  have h1 : (runEvents evs).bar_value = none := key evs init_state
  have h2 : dict_get "final_bar" (on_destroy (runEvents evs)).2 =
      some ((runEvents evs).bar_value) := rfl
  exact ⟨h1, h2.trans (congrArg some h1)⟩
